import Mathlib

/-!
Shallow embedding of the token-authentication and permission-authorization
subsystem of the wong-webapp-backend repository, together with proofs of the
behavioural properties stated in its specification.

The embedding follows the TypeScript source:
* `PermissionService.hasPermission` / `PermissionService.getUserPermissions`
  (services/permission.service.ts),
* the `requireRole` middleware (middlewares/permission.middleware.ts),
* `AuthService` (services/auth.service.ts): token generation/verification,
  login, refresh rotation, logout, expired-token cleanup,
* `AuthController.changePassword` (controllers/auth.controller.ts).

Databases are modelled as explicit record lists threaded through each
operation; wall-clock time is an explicit `now : Nat` parameter; the salted
one-way hash (argon2) is modelled as a salt paired with the hashed value,
verification comparing the candidate against the hashed value.
-/

namespace Wong

/-- Error kinds as surfaced to HTTP callers: 401, 403, 404, 409, 400. -/
inductive ErrKind where
  | unauthorized
  | forbidden
  | notFound
  | conflict
  | badRequest
  deriving DecidableEq, Repr

/-- An application error as it reaches the caller: the HTTP kind together with
the human-readable message placed in the response body by `ApiResponseUtil`. -/
structure AuthError where
  kind : ErrKind
  message : String
  deriving DecidableEq, Repr

/-- A (resource, action) pair, i.e. the `permission` row joined through a
`RolePermission` row. -/
structure Permission where
  resource : String
  action : String
  deriving DecidableEq, Repr

/-- A role as loaded by `prisma.user.findUnique` with
`include: role.permissions.permission`: slug plus the flattened list of joined
permissions. -/
structure Role where
  id : Nat
  slug : String
  permissions : List Permission
  deriving DecidableEq, Repr

/-- A user row joined with its role, as returned by the `include` queries of
`PermissionService`. -/
structure PrincipalRecord where
  id : Nat
  role : Role
  deriving DecidableEq, Repr

/-- `prisma.user.findUnique({ where: { id: userId } })` over the user table. -/
def findUserById (users : List PrincipalRecord) (userId : Nat) :
    Option PrincipalRecord :=
  users.find? (fun u => u.id == userId)

/-- `PermissionService.hasPermission`: load the user with its role and joined
permissions; a missing user yields `false`; a role with slug `super-admin`
passes unconditionally; otherwise the role must hold the exact pair. -/
def hasPermission (users : List PrincipalRecord) (userId : Nat)
    (resource action : String) : Bool :=
  match findUserById users userId with
  | none => false
  | some user =>
    if user.role.slug == "super-admin" then
      true
    else
      user.role.permissions.any
        (fun p => p.resource == resource && p.action == action)

/-- `PermissionService.getUserPermissions`: a missing user raises
`NotFoundError`; otherwise the role's joined permissions are returned. -/
def getUserPermissions (users : List PrincipalRecord) (userId : Nat) :
    Except AuthError (List Permission) :=
  match findUserById users userId with
  | none => .error ⟨.notFound, "User not found"⟩
  | some user => .ok user.role.permissions

/-- The `roleSlugs : string | string[]` argument of the `requireRole`
middleware factory. -/
inductive RoleSlugsArg where
  | single (slug : String)
  | many (slugs : List String)
  deriving DecidableEq, Repr

/-- `Array.isArray(roleSlugs) ? roleSlugs : [roleSlugs]`. -/
def toAllowedRoles : RoleSlugsArg → List String
  | .single slug => [slug]
  | .many slugs => slugs

/-- Outcome of a request-gating middleware: 401 response, 403 response, or
`next()`. -/
inductive GateDecision where
  | unauthorizedGate (message : String)
  | forbiddenGate (message : String)
  | nextGate
  deriving DecidableEq, Repr

/-- The `requireRole` middleware: 401 when `req.user` is absent; 403 when the
authenticated user's role slug is not in the allowed list; `next()` otherwise.
There is no super-admin special case in this code path. -/
def requireRole (roleSlugs : RoleSlugsArg) (reqUser : Option PrincipalRecord) :
    GateDecision :=
  match reqUser with
  | none => .unauthorizedGate "Authentication required"
  | some user =>
    if !((toAllowedRoles roleSlugs).contains user.role.slug) then
      .forbiddenGate "You don\x27t have the required role to access this resource"
    else
      .nextGate

/-! ### Theorems about the permission subsystem -/

/-- C2: for every principal whose role slug equals the reserved super-admin
slug `super-admin`, `hasPermission` returns `true` for every
(resource, action) pair, including pairs backed by no seeded Permission row
and pairs absent from the role's RolePermission rows. -/
theorem super_admin_passes_every_check
    (users : List PrincipalRecord) (userId : Nat) (u : PrincipalRecord)
    (hfind : findUserById users userId = some u)
    (hslug : u.role.slug = "super-admin")
    (resource action : String) :
    hasPermission users userId resource action = true := by
  unfold hasPermission
  rw [hfind]
  simp [hslug]

/-- Witness for C2: a super-admin principal whose role carries no permission
rows at all still passes a check for a pair that is not even seeded. -/
theorem super_admin_passes_every_check_witness :
    hasPermission [⟨1, ⟨7, "super-admin", []⟩⟩] 1 "totally-unseeded" "noop"
      = true :=
  super_admin_passes_every_check [⟨1, ⟨7, "super-admin", []⟩⟩] 1
    ⟨1, ⟨7, "super-admin", []⟩⟩ rfl rfl "totally-unseeded" "noop"

/-- C6: for a principal whose role slug is not the super-admin slug,
`hasPermission` is `true` iff the exact (resource, action) pair occurs among
the role's joined permissions; and prepending an unrelated permission `q`
(one that differs from the checked pair) to the role leaves the result of the
check unchanged. -/
theorem non_privileged_check_is_exact_membership
    (users users2 : List PrincipalRecord) (userId : Nat)
    (u u2 : PrincipalRecord) (q : Permission) (resource action : String)
    (hfind : findUserById users userId = some u)
    (hslug : u.role.slug ≠ "super-admin")
    (hfind2 : findUserById users2 userId = some u2)
    (hslug2 : u2.role.slug = u.role.slug)
    (hperm2 : u2.role.permissions = q :: u.role.permissions)
    (hq : ¬(q.resource = resource ∧ q.action = action)) :
    (hasPermission users userId resource action = true ↔
      ∃ p ∈ u.role.permissions, p.resource = resource ∧ p.action = action) ∧
    hasPermission users2 userId resource action
      = hasPermission users userId resource action := by
  have h1 : hasPermission users userId resource action
      = u.role.permissions.any
          (fun p => p.resource == resource && p.action == action) := by
    unfold hasPermission
    rw [hfind]
    simp [hslug]
  have h2 : hasPermission users2 userId resource action
      = u2.role.permissions.any
          (fun p => p.resource == resource && p.action == action) := by
    unfold hasPermission
    rw [hfind2]
    simp [hslug2, hslug]
  have hqfalse : (q.resource == resource && q.action == action) = false := by
    cases hr : (q.resource == resource) <;> cases ha : (q.action == action) <;>
      simp_all [beq_iff_eq]
  constructor
  · rw [h1]
    simp [List.any_eq_true, Bool.and_eq_true, beq_iff_eq]
  · rw [h1, h2, hperm2]
    simp [hqfalse]

/-- Witness for C6: an employee role holding only (leave, read) fails a
(payroll, read) check, and the result is characterised by exact membership;
adding the unrelated pair (user, read) to the role does not change it. -/
theorem non_privileged_check_is_exact_membership_witness :
    (hasPermission [⟨1, ⟨3, "employee", [⟨"leave", "read"⟩]⟩⟩] 1
        "payroll" "read" = true ↔
      ∃ p ∈ [(⟨"leave", "read"⟩ : Permission)],
        p.resource = "payroll" ∧ p.action = "read") ∧
    hasPermission [⟨1, ⟨3, "employee", [⟨"user", "read"⟩, ⟨"leave", "read"⟩]⟩⟩]
        1 "payroll" "read"
      = hasPermission [⟨1, ⟨3, "employee", [⟨"leave", "read"⟩]⟩⟩] 1
        "payroll" "read" :=
  non_privileged_check_is_exact_membership
    [⟨1, ⟨3, "employee", [⟨"leave", "read"⟩]⟩⟩]
    [⟨1, ⟨3, "employee", [⟨"user", "read"⟩, ⟨"leave", "read"⟩]⟩⟩]
    1 ⟨1, ⟨3, "employee", [⟨"leave", "read"⟩]⟩⟩
    ⟨1, ⟨3, "employee", [⟨"user", "read"⟩, ⟨"leave", "read"⟩]⟩⟩
    ⟨"user", "read"⟩ "payroll" "read"
    rfl (by decide) rfl rfl rfl (by decide)

/-- C9: `requireRole` grants access exactly when the authenticated principal's
role slug is literally a member of the allowed slug list; in particular the
super-admin universal-access bypass does not apply here, so a principal with
the reserved super-admin slug is rejected with the Forbidden response by any
allowed list not containing that slug. -/
theorem requireRole_is_literal_membership
    (roleSlugs : RoleSlugsArg) (u : PrincipalRecord) :
    (requireRole roleSlugs (some u) = .nextGate ↔
      u.role.slug ∈ toAllowedRoles roleSlugs) ∧
    (u.role.slug = "super-admin" →
      "super-admin" ∉ toAllowedRoles roleSlugs →
      requireRole roleSlugs (some u)
        = .forbiddenGate
          "You don\x27t have the required role to access this resource") := by
  constructor
  · cases hmem : (toAllowedRoles roleSlugs).contains u.role.slug <;>
      simp [requireRole, hmem]
  · intro hslug hmem
    have hfalse : (toAllowedRoles roleSlugs).contains u.role.slug = false := by
      rw [hslug]
      simpa using hmem
    simp [requireRole, hfalse]
    rw [hslug]
    exact hmem

/-- Witness for C9: a super-admin principal is rejected with Forbidden by a
gate that allows only `hr-manager`. -/
theorem requireRole_is_literal_membership_witness :
    requireRole (.many ["hr-manager"]) (some ⟨1, ⟨7, "super-admin", []⟩⟩)
      = .forbiddenGate
        "You don\x27t have the required role to access this resource" :=
  (requireRole_is_literal_membership (.many ["hr-manager"])
    ⟨1, ⟨7, "super-admin", []⟩⟩).2 rfl (by decide)

/-- C10: for a principal id matching no stored user, `hasPermission` returns
`false` (a plain denial) for every (resource, action) pair, while
`getUserPermissions` for the same id fails with NotFound. -/
theorem missing_principal_denied_not_raised
    (users : List PrincipalRecord) (userId : Nat)
    (hfind : findUserById users userId = none)
    (resource action : String) :
    hasPermission users userId resource action = false ∧
    getUserPermissions users userId = .error ⟨.notFound, "User not found"⟩ := by
  unfold hasPermission getUserPermissions
  rw [hfind]
  exact ⟨rfl, rfl⟩

/-- Witness for C10: an empty user table denies the check and makes the
permission listing fail with NotFound. -/
theorem missing_principal_denied_not_raised_witness :
    hasPermission [] 42 "payroll" "read" = false ∧
    getUserPermissions [] 42 = .error ⟨.notFound, "User not found"⟩ :=
  missing_principal_denied_not_raised [] 42 rfl "payroll" "read"

/-! ### Authenticator: token codec, refresh-token ledger, AuthService -/

/-- The claims embedded in every signed token: `{ userId, email, roleId }`. -/
structure JWTPayload where
  userId : Nat
  email : String
  roleId : Nat
  deriving DecidableEq, Repr

/-- A signed JWT as produced by `jwt.sign(payload, secret, { expiresIn })`:
payload, the signing secret, and the absolute expiry embedded at signing
time. -/
structure SignedToken where
  payload : JWTPayload
  secret : Nat
  exp : Nat
  deriving DecidableEq, Repr

/-- The env secret used for access tokens. -/
def JWT_ACCESS_SECRET : Nat := 0

/-- The env secret used for refresh tokens; distinct from the access secret. -/
def JWT_REFRESH_SECRET : Nat := 1

/-- Access-token TTL (`ACCESS_TOKEN_EXPIRES_IN`, minutes-scale), in abstract
clock units. -/
def ACCESS_TOKEN_EXPIRES_IN : Nat := 15

/-- Refresh-token TTL (`REFRESH_TOKEN_EXPIRES_IN`, days-scale), in the same
abstract clock units. -/
def REFRESH_TOKEN_EXPIRES_IN : Nat := 10080

/-- `jwt.sign`: deterministic signing with an embedded expiry. -/
def jwtSign (payload : JWTPayload) (secret : Nat) (now expiresIn : Nat) :
    SignedToken :=
  ⟨payload, secret, now + expiresIn⟩

/-- `jwt.verify`: yields the claims iff the token was signed with the given
secret and its embedded expiry has not passed. -/
def jwtVerify (token : SignedToken) (secret : Nat) (now : Nat) :
    Option JWTPayload :=
  if token.secret == secret && now < token.exp then some token.payload
  else none

/-- `AuthService.verifyRefreshToken`: normalises any `jwt.verify` failure to
an opaque Unauthorized error. -/
def verifyRefreshToken (token : SignedToken) (now : Nat) :
    Except AuthError JWTPayload :=
  match jwtVerify token JWT_REFRESH_SECRET now with
  | some payload => .ok payload
  | none => .error ⟨.unauthorized, "Invalid or expired refresh token"⟩

/-- A salted one-way hash (argon2). The salt makes hashes of equal inputs
distinct as stored values; verification compares the candidate against the
hashed input. -/
structure Hashed (α : Type) where
  salt : Nat
  raw : α
  deriving DecidableEq, Repr

/-- `argon2.verify(hash, candidate)`: true iff the hash was produced from the
candidate (the per-row salt does not affect the outcome). -/
def verifyHash {α : Type} [BEq α] (h : Hashed α) (candidate : α) : Bool :=
  h.raw == candidate

/-- `AuthService.verifyPassword` as invoked on a possibly-missing hash: on a
missing (`undefined`) hash `argon2.verify` raises, the wrapper catches the
error and returns `false`. -/
def verifyHashOpt {α : Type} [BEq α] (h : Option (Hashed α)) (candidate : α) :
    Bool :=
  match h with
  | some hv => verifyHash hv candidate
  | none => false

/-- A row of the `RefreshToken` table: the salted hash of the raw token (never
the plaintext), the owning user, absolute expiry, revocation state, and the
issuing request context. -/
structure RefreshTokenRow where
  id : Nat
  token : Hashed SignedToken
  userId : Nat
  expiresAt : Nat
  isRevoked : Bool
  revokedAt : Option Nat
  userAgent : Option String
  ipAddress : Option String
  deriving DecidableEq, Repr

/-- A row of the `User` table, restricted to the fields the authenticator
reads or writes. -/
structure UserRow where
  id : Nat
  email : String
  password : Hashed String
  roleId : Nat
  isActive : Bool
  lastLoginAt : Option Nat
  passwordChangedAt : Option Nat
  deriving DecidableEq, Repr

/-- The relational store as seen by the authenticator: the user table, the
refresh-token table, and a counter supplying fresh row ids and hash salts. -/
structure AuthDB where
  users : List UserRow
  refreshTokens : List RefreshTokenRow
  nextId : Nat
  deriving DecidableEq, Repr

/-- The `{ accessToken, refreshToken }` pair returned by token issuance. -/
structure TokenPair where
  accessToken : SignedToken
  refreshToken : SignedToken
  deriving DecidableEq, Repr

/-- `AuthService.generateAccessToken`. -/
def generateAccessToken (payload : JWTPayload) (now : Nat) : SignedToken :=
  jwtSign payload JWT_ACCESS_SECRET now ACCESS_TOKEN_EXPIRES_IN

/-- `AuthService.generateRefreshToken`. -/
def generateRefreshToken (payload : JWTPayload) (now : Nat) : SignedToken :=
  jwtSign payload JWT_REFRESH_SECRET now REFRESH_TOKEN_EXPIRES_IN

/-- `AuthService.generateTokenPair`: sign both tokens, hash the refresh token,
and insert a new non-revoked ledger row with expiry `now + ttl`. -/
def generateTokenPair (db : AuthDB) (now : Nat) (userId : Nat) (email : String)
    (roleId : Nat) (userAgent ipAddress : Option String) :
    TokenPair × AuthDB :=
  let payload : JWTPayload := ⟨userId, email, roleId⟩
  let accessToken := generateAccessToken payload now
  let refreshToken := generateRefreshToken payload now
  let expiresAt := now + REFRESH_TOKEN_EXPIRES_IN
  let hashedRefreshToken : Hashed SignedToken := ⟨db.nextId, refreshToken⟩
  (⟨accessToken, refreshToken⟩,
   { db with
      refreshTokens := db.refreshTokens ++
        [⟨db.nextId, hashedRefreshToken, userId, expiresAt, false, none,
          userAgent, ipAddress⟩],
      nextId := db.nextId + 1 })

/-- The `prisma.refreshToken.updateMany({ where: { userId, isRevoked: false },
data: { isRevoked: true, revokedAt } })` write shared by refresh rotation,
global logout, and password change. -/
def revokeAllActiveRows (rows : List RefreshTokenRow) (userId : Nat)
    (now : Nat) : List RefreshTokenRow :=
  rows.map (fun t =>
    if t.userId == userId && t.isRevoked == false then
      { t with isRevoked := true, revokedAt := some now }
    else t)

/-- `AuthService.login`: find the user by email, reject unknown email,
inactive account, or non-verifying password with Unauthorized; on success
stamp `lastLoginAt` and issue a token pair.  The user payload of the response
(source strips the password field) is not modelled; no claim reads it. -/
def login (db : AuthDB) (now : Nat) (email password : String)
    (userAgent ipAddress : Option String) :
    Except AuthError TokenPair × AuthDB :=
  match db.users.find? (fun u => u.email == email) with
  | none => (.error ⟨.unauthorized, "Invalid credentials"⟩, db)
  | some user =>
    if !user.isActive then
      (.error ⟨.unauthorized, "Account is deactivated"⟩, db)
    else if !(verifyHash user.password password) then
      (.error ⟨.unauthorized, "Invalid credentials"⟩, db)
    else
      let db1 : AuthDB :=
        { db with
            users := db.users.map (fun u =>
              if u.id == user.id then { u with lastLoginAt := some now }
              else u) }
      let issued :=
        generateTokenPair db1 now user.id user.email user.roleId
          userAgent ipAddress
      (.ok issued.1, issued.2)

/-- `AuthService.refreshAccessToken`: verify the raw token's signature and
embedded expiry; require a matching non-revoked, non-expired ledger row for
the embedded user id (linear scan, hash comparison per row); require the user
to exist and be active; then issue a fresh pair and run the rotation
`updateMany` that marks every currently non-revoked row of the user revoked.
The `updateMany` runs after the new row was inserted. -/
def refreshAccessToken (db : AuthDB) (now : Nat) (refreshToken : SignedToken)
    (userAgent ipAddress : Option String) :
    Except AuthError TokenPair × AuthDB :=
  match verifyRefreshToken refreshToken now with
  | .error e => (.error e, db)
  | .ok payload =>
    if !((db.refreshTokens.filter (fun t =>
          t.userId == payload.userId && t.isRevoked == false &&
            now < t.expiresAt)).any
        (fun t => verifyHash t.token refreshToken)) then
      (.error ⟨.unauthorized, "Invalid refresh token"⟩, db)
    else
      match db.users.find? (fun u => u.id == payload.userId) with
      | none => (.error ⟨.unauthorized, "User not found or inactive"⟩, db)
      | some user =>
        if !user.isActive then
          (.error ⟨.unauthorized, "User not found or inactive"⟩, db)
        else
          (.ok (generateTokenPair db now user.id user.email user.roleId
              userAgent ipAddress).1,
           { (generateTokenPair db now user.id user.email user.roleId
                userAgent ipAddress).2 with
              refreshTokens :=
                revokeAllActiveRows
                  (generateTokenPair db now user.id user.email user.roleId
                    userAgent ipAddress).2.refreshTokens user.id now })

/-- `AuthService.logout`: with a raw token, revoke only the first non-revoked
row whose hash verifies it (no-op when none matches); with no token, revoke
every non-revoked row of the user. -/
def logout (db : AuthDB) (now : Nat) (userId : Nat)
    (refreshToken : Option SignedToken) : Except AuthError Unit × AuthDB :=
  match refreshToken with
  | some raw =>
    match (db.refreshTokens.filter (fun t =>
        t.userId == userId && t.isRevoked == false)).find?
        (fun t => verifyHash t.token raw) with
    | some hit =>
      (.ok (),
       { db with
          refreshTokens := db.refreshTokens.map (fun t =>
            if t.id == hit.id then
              { t with isRevoked := true, revokedAt := some now }
            else t) })
    | none => (.ok (), db)
  | none =>
    (.ok (),
     { db with
        refreshTokens := revokeAllActiveRows db.refreshTokens userId now })

/-- `AuthService.cleanupExpiredTokens`: `deleteMany` of every row with
`expiresAt < now`, returning the deleted count. -/
def cleanupExpiredTokens (db : AuthDB) (now : Nat) : Nat × AuthDB :=
  ((db.refreshTokens.filter (fun t => t.expiresAt < now)).length,
   { db with
      refreshTokens := db.refreshTokens.filter (fun t => !(t.expiresAt < now)) })

/-- The user object returned by `AuthService.getUserWithPermissions`: the
password field was destructured away, so reading `.password` on it yields
`undefined`, modelled as the always-`none` optional field. -/
structure UserView where
  id : Nat
  email : String
  roleId : Nat
  isActive : Bool
  password : Option (Hashed String)
  deriving DecidableEq, Repr

/-- `AuthService.getUserWithPermissions`: NotFound for a missing user;
otherwise the user record with the password field removed. -/
def getUserWithPermissions (db : AuthDB) (userId : Nat) :
    Except AuthError UserView :=
  match db.users.find? (fun u => u.id == userId) with
  | none => .error ⟨.notFound, "User not found"⟩
  | some u => .ok ⟨u.id, u.email, u.roleId, u.isActive, none⟩

/-- `AuthController.changePassword`: loads the user through
`getUserWithPermissions` (which strips the password), verifies the supplied
current password against the `.password` property of that stripped object,
and on failure answers 400; on success it would store the new hash, stamp
`passwordChangedAt`, and revoke all sessions via `logout`. -/
def changePassword (db : AuthDB) (now : Nat) (userId : Nat)
    (currentPassword newPassword : String) :
    Except AuthError Unit × AuthDB :=
  match getUserWithPermissions db userId with
  | .error e => (.error e, db)
  | .ok user =>
    if !(verifyHashOpt user.password currentPassword) then
      (.error ⟨.badRequest, "Current password is incorrect"⟩, db)
    else
      let hashed : Hashed String := ⟨db.nextId, newPassword⟩
      let db1 : AuthDB :=
        { db with
            users := db.users.map (fun u =>
              if u.id == userId then
                { u with password := hashed, passwordChangedAt := some now }
              else u) }
      (.ok (), (logout db1 now userId none).2)

/-- The error kind visible on the failure side of a result, `none` on
success. -/
def errKindOf {α : Type} : Except AuthError α → Option ErrKind
  | .ok _ => none
  | .error e => some e.kind

/-- The error message visible on the failure side of a result, `none` on
success. -/
def errMsgOf {α : Type} : Except AuthError α → Option String
  | .ok _ => none
  | .error e => some e.message

/-! ### A concrete login/refresh scenario

One active user (id 1) plus an unrelated refresh-token row of another user
(id 9, row 50).  A refresh token for user 1 is issued at time 0 (row 51) and
used to refresh at time 1, which persists row 52 for the new refresh token and
then runs the rotation `updateMany`. -/

/-- An active user with password hash of `pw`. -/
def demoUser : UserRow := ⟨1, "a@x", ⟨100, "pw"⟩, 2, true, none, none⟩

/-- A live refresh token of the unrelated user 9. -/
def demoTok9 : SignedToken := ⟨⟨9, "z@x", 3⟩, JWT_REFRESH_SECRET, 99999⟩

/-- The ledger row of user 9's token. -/
def demoRow9 : RefreshTokenRow :=
  ⟨50, ⟨50, demoTok9⟩, 9, 99999, false, none, none, none⟩

/-- Initial store: user 1, the unrelated row 50, next fresh id 51. -/
def demoDB0 : AuthDB := ⟨[demoUser], [demoRow9], 51⟩

/-- Token issuance for user 1 at time 0 (as performed inside `login`). -/
def demoIssue : TokenPair × AuthDB := generateTokenPair demoDB0 0 1 "a@x" 2 none none

/-- The raw refresh token handed to user 1. -/
def demoRT0 : SignedToken := demoIssue.1.refreshToken

/-- The store right after issuance: rows 50 and 51, both non-revoked. -/
def demoDB1 : AuthDB := demoIssue.2

/-- The refresh call at time 1 using the issued token. -/
def demoRefresh : Except AuthError TokenPair × AuthDB :=
  refreshAccessToken demoDB1 1 demoRT0 none none

/-- The token pair the refresh call returns. -/
def demoPair : TokenPair :=
  ⟨⟨⟨1, "a@x", 2⟩, JWT_ACCESS_SECRET, 16⟩,
   ⟨⟨1, "a@x", 2⟩, JWT_REFRESH_SECRET, 10081⟩⟩

/-- The store after the refresh call. -/
def demoDB2 : AuthDB := demoRefresh.2

/-! ### Theorems about the authenticator -/

/-- C1: the rotation step of a successful refresh call is claimed to revoke
exactly the prior non-revoked rows of the principal and to leave the
brand-new refresh token non-revoked, so that an immediately following refresh
with the returned token succeeds.  The code persists the new row first and
then runs `updateMany({ userId, isRevoked: false })`, which revokes the new
row 52 as well: the returned refresh token is dead on arrival and the
follow-up refresh fails with Unauthorized.  (The unrelated user's row 50 is
untouched, and the prior row 51 is revoked, as claimed.) -/
theorem rotation_revokes_the_new_token_too :
    demoRefresh.1 = .ok demoPair ∧
    demoDB2.refreshTokens.map (fun t => (t.id, t.userId, t.isRevoked))
      = [(50, 9, false), (51, 1, true), (52, 1, true)] ∧
    errKindOf (refreshAccessToken demoDB2 2 demoPair.refreshToken none none).1
      = some .unauthorized :=
  ⟨rfl, by decide, by decide⟩

/-- A store holding a single inactive user, used to separate the visible
login failures. -/
def cexInactiveDB : AuthDB :=
  ⟨[⟨1, "a@x", ⟨100, "pw"⟩, 2, false, none, none⟩], [], 0⟩

/-- C4 counterexample: the visible result of a login failure includes the
response message, and the message for an unknown email (`Invalid
credentials`) differs from the one for an inactive account (`Account is
deactivated`), so the three failure causes are not indistinguishable to the
caller. -/
theorem login_inactive_failure_is_distinguishable :
    errMsgOf (login cexInactiveDB 0 "nobody@x" "pw" none none).1
      ≠ errMsgOf (login cexInactiveDB 0 "a@x" "pw" none none).1 := by
  decide

/-- C4 (amended): every login failure carries the same Unauthorized kind;
unknown email and non-verifying password yield the identical opaque message
`Invalid credentials` and remain indistinguishable, while an inactive account
yields the distinct message `Account is deactivated`, which occurs only when
a user with the given email exists and is inactive. -/
theorem login_failures_same_kind_inactive_distinct_message
    (db : AuthDB) (now : Nat) (email password : String)
    (ua ip : Option String) (e : AuthError)
    (h : (login db now email password ua ip).1 = .error e) :
    e.kind = .unauthorized ∧
    (e.message = "Invalid credentials" ∨
      e.message = "Account is deactivated") ∧
    (e.message = "Account is deactivated" →
      ∃ u ∈ db.users, u.email = email ∧ u.isActive = false) := by
  unfold login at h
  cases hfind : db.users.find? (fun u => u.email == email) with
  | none =>
    rw [hfind] at h
    simp at h
    subst h
    refine ⟨rfl, .inl rfl, ?_⟩
    intro habs
    exact absurd habs (by decide)
  | some user =>
    rw [hfind] at h
    cases hact : user.isActive with
    | false =>
      simp [hact] at h
      subst h
      refine ⟨rfl, .inr rfl, ?_⟩
      intro _
      refine ⟨user, List.mem_of_find?_eq_some hfind, ?_, hact⟩
      simpa using List.find?_some hfind
    | true =>
      cases hpw : verifyHash user.password password with
      | false =>
        simp [hact, hpw] at h
        subst h
        refine ⟨rfl, .inl rfl, ?_⟩
        intro habs
        exact absurd habs (by decide)
      | true =>
        simp [hact, hpw] at h

/-- Witness for the amended C4: the unknown-email failure instantiates the
amended statement with the opaque Unauthorized error. -/
theorem login_failures_same_kind_witness :
    (⟨.unauthorized, "Invalid credentials"⟩ : AuthError).kind
      = .unauthorized ∧
    ((⟨.unauthorized, "Invalid credentials"⟩ : AuthError).message
        = "Invalid credentials" ∨
      (⟨.unauthorized, "Invalid credentials"⟩ : AuthError).message
        = "Account is deactivated") ∧
    ((⟨.unauthorized, "Invalid credentials"⟩ : AuthError).message
        = "Account is deactivated" →
      ∃ u ∈ cexInactiveDB.users, u.email = "nobody@x" ∧ u.isActive = false) :=
  login_failures_same_kind_inactive_distinct_message cexInactiveDB 0
    "nobody@x" "pw" none none ⟨.unauthorized, "Invalid credentials"⟩ rfl

/-- C5: `changePassword` is claimed to succeed when the supplied current
password verifies against the stored hash, then store the new hash and revoke
all refresh tokens.  The controller, however, loads the user through
`getUserWithPermissions`, which strips the password field, and verifies the
candidate against the stripped object's absent `.password` property, so the
verification always fails: for every store and every input — including a
correct current password — the call answers NotFound or a 400
`Current password is incorrect` and leaves the store (users and
refresh-token ledger alike) completely unchanged. -/
theorem changePassword_always_rejects (db : AuthDB) (now userId : Nat)
    (currentPassword newPassword : String) :
    ((changePassword db now userId currentPassword newPassword).1
        = .error ⟨.notFound, "User not found"⟩ ∨
      (changePassword db now userId currentPassword newPassword).1
        = .error ⟨.badRequest, "Current password is incorrect"⟩) ∧
    (changePassword db now userId currentPassword newPassword).2 = db := by
  unfold changePassword getUserWithPermissions
  cases hfind : db.users.find? (fun u => u.id == userId) <;>
    simp [hfind, verifyHashOpt]

/-- C7: `cleanupExpiredTokens` deletes exactly the rows whose expiry has
passed — the kept rows are characterised by the expiry predicate alone,
regardless of the revoked flag — leaves the user table alone, and is
idempotent: a second sweep at a time `now2` at which no additional row has
expired deletes zero rows and leaves the store unchanged. -/
theorem cleanup_deletes_exactly_expired_and_idempotent
    (db : AuthDB) (now now2 : Nat)
    (hno : ∀ t ∈ (cleanupExpiredTokens db now).2.refreshTokens,
      t.expiresAt < now2 → t.expiresAt < now) :
    (cleanupExpiredTokens db now).1
      = (db.refreshTokens.filter (fun t => t.expiresAt < now)).length ∧
    (cleanupExpiredTokens db now).2.refreshTokens
      = db.refreshTokens.filter (fun t => !(t.expiresAt < now)) ∧
    (cleanupExpiredTokens db now).2.users = db.users ∧
    (cleanupExpiredTokens (cleanupExpiredTokens db now).2 now2).1 = 0 ∧
    (cleanupExpiredTokens (cleanupExpiredTokens db now).2 now2).2
      = (cleanupExpiredTokens db now).2 := by
  have hnone : (cleanupExpiredTokens db now).2.refreshTokens.filter
      (fun t => t.expiresAt < now2) = [] := by
    refine List.filter_eq_nil_iff.mpr ?_
    intro t ht
    have hkept : ¬(t.expiresAt < now) := by
      have := List.of_mem_filter ht
      simpa using this
    intro hlt
    have hlt2 : t.expiresAt < now2 := by simpa using hlt
    exact hkept (hno t ht hlt2)
  have hall : (cleanupExpiredTokens db now).2.refreshTokens.filter
      (fun t => !(t.expiresAt < now2))
      = (cleanupExpiredTokens db now).2.refreshTokens := by
    refine List.filter_eq_self.mpr ?_
    intro t ht
    have hkept : ¬(t.expiresAt < now) := by
      have := List.of_mem_filter ht
      simpa using this
    simp only [Bool.not_eq_true']
    by_contra hcon
    have hlt2 : t.expiresAt < now2 := by
      simpa using Bool.of_not_eq_false hcon
    exact hkept (hno t ht hlt2)
  refine ⟨rfl, rfl, rfl, ?_, ?_⟩
  · show ((cleanupExpiredTokens db now).2.refreshTokens.filter
      (fun t => t.expiresAt < now2)).length = 0
    rw [hnone]
    rfl
  · show ({ (cleanupExpiredTokens db now).2 with
        refreshTokens := (cleanupExpiredTokens db now).2.refreshTokens.filter
          (fun t => !(t.expiresAt < now2)) } : AuthDB)
      = (cleanupExpiredTokens db now).2
    rw [hall]

/-- Witness for C7: a store holding one expired revoked row, one expired
non-revoked row, and one live row, swept at time 10 and then again at
time 10: the second sweep deletes nothing. -/
theorem cleanup_deletes_exactly_expired_and_idempotent_witness :
    (cleanupExpiredTokens
      (cleanupExpiredTokens
        ⟨[], [⟨1, ⟨1, demoTok9⟩, 9, 5, true, some 6, none, none⟩,
              ⟨2, ⟨2, demoTok9⟩, 9, 7, false, none, none, none⟩,
              ⟨3, ⟨3, demoTok9⟩, 9, 50, false, none, none, none⟩], 4⟩ 10).2
      10).1 = 0 :=
  (cleanup_deletes_exactly_expired_and_idempotent
    ⟨[], [⟨1, ⟨1, demoTok9⟩, 9, 5, true, some 6, none, none⟩,
          ⟨2, ⟨2, demoTok9⟩, 9, 7, false, none, none, none⟩,
          ⟨3, ⟨3, demoTok9⟩, 9, 50, false, none, none, none⟩], 4⟩ 10 10
    (by decide)).2.2.2.1

/-- `jwtVerify` only ever yields the claims embedded in the token itself. -/
theorem jwtVerify_some_payload {t : SignedToken} {s n : Nat} {p : JWTPayload}
    (h : jwtVerify t s n = some p) : p = t.payload := by
  unfold jwtVerify at h
  split at h
  · exact (Option.some.inj h).symm
  · exact Option.noConfusion h

/-- Every failure of `verifyRefreshToken` is normalised to Unauthorized. -/
theorem verifyRefreshToken_error_kind {t : SignedToken} {n : Nat}
    {e : AuthError} (h : verifyRefreshToken t n = .error e) :
    e.kind = .unauthorized := by
  unfold verifyRefreshToken at h
  split at h
  · exact Except.noConfusion h
  · have := Except.error.inj h
    rw [← this]

/-- A success of `verifyRefreshToken` carries the token's own claims. -/
theorem verifyRefreshToken_ok_payload {t : SignedToken} {n : Nat}
    {p : JWTPayload} (h : verifyRefreshToken t n = .ok p) : p = t.payload := by
  unfold verifyRefreshToken at h
  split at h
  · rename_i q hq
    rw [← Except.ok.inj h]
    exact jwtVerify_some_payload hq
  · exact Except.noConfusion h

/-- After the rotation `updateMany`, every row of the targeted user is
revoked. -/
theorem mem_revokeAllActiveRows_revoked {rows : List RefreshTokenRow}
    {userId now : Nat} {t : RefreshTokenRow}
    (ht : t ∈ revokeAllActiveRows rows userId now) (huid : t.userId = userId) :
    t.isRevoked = true := by
  unfold revokeAllActiveRows at ht
  rcases List.mem_map.mp ht with ⟨s, hs, rfl⟩
  by_cases hc : (s.userId == userId && s.isRevoked == false) = true
  · rw [if_pos hc] at huid ⊢
  · rw [if_neg hc] at huid ⊢
    cases hb : s.isRevoked with
    | true => rfl
    | false => exact absurd (by simp [huid, hb]) hc

/-- `refreshAccessToken` either fails with some Unauthorized error and
returns the input store, or succeeds. -/
theorem refreshAccessToken_cases (db : AuthDB) (now : Nat)
    (raw : SignedToken) (ua ip : Option String) :
    (∃ e, refreshAccessToken db now raw ua ip = (.error e, db) ∧
      e.kind = .unauthorized) ∨
    (∃ pair db2, refreshAccessToken db now raw ua ip = (.ok pair, db2)) := by
  unfold refreshAccessToken
  split
  · rename_i e hv
    exact .inl ⟨e, rfl, verifyRefreshToken_error_kind hv⟩
  · split
    · exact .inl ⟨_, rfl, rfl⟩
    · split
      · exact .inl ⟨_, rfl, rfl⟩
      · split
        · exact .inl ⟨_, rfl, rfl⟩
        · exact .inr ⟨_, _, rfl⟩

/-- After a successful refresh call, every ledger row belonging to the user
named in the raw token is revoked — including the row persisted for the new
refresh token by the very same call. -/
theorem refreshAccessToken_ok_allRevoked
    {db : AuthDB} {now : Nat} {raw : SignedToken} {ua ip : Option String}
    {pair : TokenPair} {db2 : AuthDB}
    (h : refreshAccessToken db now raw ua ip = (.ok pair, db2)) :
    ∀ t ∈ db2.refreshTokens, t.userId = raw.payload.userId →
      t.isRevoked = true := by
  unfold refreshAccessToken at h
  split at h
  · exact absurd (congrArg Prod.fst h) (by simp)
  · rename_i payload hv
    have hpay : payload = raw.payload := verifyRefreshToken_ok_payload hv
    split at h
    · exact absurd (congrArg Prod.fst h) (by simp)
    · split at h
      · exact absurd (congrArg Prod.fst h) (by simp)
      · rename_i user hfind
        split at h
        · exact absurd (congrArg Prod.fst h) (by simp)
        · have hdb : ({ (generateTokenPair db now user.id user.email
                user.roleId ua ip).2 with
              refreshTokens :=
                revokeAllActiveRows
                  (generateTokenPair db now user.id user.email
                    user.roleId ua ip).2.refreshTokens user.id now } : AuthDB)
              = db2 := congrArg Prod.snd h
          intro t ht htuid
          rw [← hdb] at ht
          have ht2 : t ∈ revokeAllActiveRows
              (generateTokenPair db now user.id user.email
                user.roleId ua ip).2.refreshTokens user.id now := ht
          have huid2 : user.id = payload.userId := by
            simpa using List.find?_some hfind
          have huid : t.userId = user.id := by
            rw [htuid, huid2, hpay]
          exact mem_revokeAllActiveRows_revoked ht2 huid

/-- A successful refresh call found a non-revoked, non-expired ledger row of
the token's user whose hash verifies the raw token. -/
theorem refreshAccessToken_ok_valid_row
    {db : AuthDB} {now : Nat} {raw : SignedToken} {ua ip : Option String}
    {pair : TokenPair} {db2 : AuthDB}
    (h : refreshAccessToken db now raw ua ip = (.ok pair, db2)) :
    ∃ t ∈ db.refreshTokens, t.userId = raw.payload.userId ∧
      t.isRevoked = false ∧ now < t.expiresAt ∧
      verifyHash t.token raw = true := by
  unfold refreshAccessToken at h
  split at h
  · exact absurd (congrArg Prod.fst h) (by simp)
  · rename_i payload hv
    have hpay : payload = raw.payload := verifyRefreshToken_ok_payload hv
    split at h
    · exact absurd (congrArg Prod.fst h) (by simp)
    · rename_i hcond
      have hany : (db.refreshTokens.filter (fun t =>
          t.userId == payload.userId && t.isRevoked == false &&
            now < t.expiresAt)).any
          (fun t => verifyHash t.token raw) = true := by
        cases hx : (db.refreshTokens.filter (fun t =>
            t.userId == payload.userId && t.isRevoked == false &&
              now < t.expiresAt)).any
            (fun t => verifyHash t.token raw) with
        | true => rfl
        | false => exact absurd (by rw [hx]; rfl) hcond
      rcases List.any_eq_true.mp hany with ⟨t, htf, hver⟩
      have htmem : t ∈ db.refreshTokens := List.mem_of_mem_filter htf
      have htpred := List.of_mem_filter htf
      simp only [Bool.and_eq_true, beq_iff_eq, decide_eq_true_eq] at htpred
      exact ⟨t, htmem, by rw [htpred.1.1, hpay], htpred.1.2, htpred.2, hver⟩

/-- C3: once a refresh call using a raw token has succeeded (its rotation
completed), any later refresh call replaying the same raw token fails with
Unauthorized. -/
theorem refresh_replay_is_rejected
    (db : AuthDB) (now : Nat) (raw : SignedToken) (ua ip : Option String)
    (pair : TokenPair) (db2 : AuthDB)
    (h : refreshAccessToken db now raw ua ip = (.ok pair, db2))
    (now2 : Nat) (ua2 ip2 : Option String) :
    errKindOf (refreshAccessToken db2 now2 raw ua2 ip2).1
      = some .unauthorized := by
  have hrev := refreshAccessToken_ok_allRevoked h
  rcases refreshAccessToken_cases db2 now2 raw ua2 ip2 with
    ⟨e, heq, hkind⟩ | ⟨pair2, db3, heq⟩
  · rw [heq]
    simp [errKindOf, hkind]
  · exfalso
    rcases refreshAccessToken_ok_valid_row heq with
      ⟨t, ht, huid, hnotrev, _, _⟩
    have htrue := hrev t ht huid
    rw [hnotrev] at htrue
    exact absurd htrue (by decide)

/-- Witness for C3: in the concrete scenario, replaying the already-rotated
token `demoRT0` at time 2 is rejected with Unauthorized. -/
theorem refresh_replay_is_rejected_witness :
    errKindOf (refreshAccessToken demoDB2 2 demoRT0 none none).1
      = some .unauthorized :=
  refresh_replay_is_rejected demoDB1 1 demoRT0 none none demoPair demoDB2
    rfl 2 none none

/-- C8: whenever a refresh call fails, the error kind is Unauthorized and the
store — in particular the refresh-token ledger — is exactly the input store:
no row was created and no revocation flag or timestamp changed. -/
theorem refresh_failure_leaves_ledger_unchanged
    (db : AuthDB) (now : Nat) (raw : SignedToken) (ua ip : Option String)
    (e : AuthError)
    (h : (refreshAccessToken db now raw ua ip).1 = .error e) :
    e.kind = .unauthorized ∧ (refreshAccessToken db now raw ua ip).2 = db := by
  rcases refreshAccessToken_cases db now raw ua ip with
    ⟨e0, heq, hkind⟩ | ⟨pair, db2, heq⟩
  · rw [heq] at h
    have he : e0 = e := Except.error.inj h
    rw [← he]
    exact ⟨hkind, by rw [heq]⟩
  · rw [heq] at h
    exact Except.noConfusion h

/-- Witness for C8: a refresh with user 9's token finds its ledger row but no
matching active user, fails with Unauthorized, and leaves the store
untouched. -/
theorem refresh_failure_leaves_ledger_unchanged_witness :
    (⟨.unauthorized, "User not found or inactive"⟩ : AuthError).kind
      = .unauthorized ∧
    (refreshAccessToken demoDB0 1 demoTok9 none none).2 = demoDB0 :=
  refresh_failure_leaves_ledger_unchanged demoDB0 1 demoTok9 none none
    ⟨.unauthorized, "User not found or inactive"⟩ rfl

end Wong
